import Mathlib

/-!
# Verification of the IPC network worker (`src/net/src/ipc_net_worker.rs`)

A shallow embedding of `IpcNetWorker` and its `tick` handshake state machine.
Time (`get_millis`) is modelled as a rational number of milliseconds supplied
by the environment; the relay, the inbound channel and the owner's handler are
modelled as per-tick environment inputs, with their fallibility made explicit.
`tick` returns, besides the `NetResult<bool>` value, the worker state after
the call (Rust's `&mut self` keeps partial mutations even when `?` aborts),
the list of messages handed to `ipc_relay.send`, and the list of messages the
owner's handler was invoked on.
-/

/-- `StateData` from the control sub-protocol: a `state` report payload. -/
structure StateData where
  state : String
  id : String
  bindings : List String
deriving DecidableEq, Repr

/-- `ConfigData` from the control sub-protocol: an opaque config blob. -/
structure ConfigData where
  config : String
deriving DecidableEq, Repr

/-- Modelled from the spec: the control sub-protocol union of
`holochain_net_connection::protocol_wrapper::ProtocolWrapper` (its source is
not part of the shown slice; §3 and §4.1 of the spec define it as a tagged
union over `requestState`, `state`, `requestDefaultConfig`, `defaultConfig`,
`setConfig`). -/
inductive ProtocolWrapper where
  | requestState
  | state (sd : StateData)
  | requestDefaultConfig
  | defaultConfig (cd : ConfigData)
  | setConfig (cd : ConfigData)
deriving DecidableEq, Repr

/-- Modelled from the spec: the JSON payload of the generic `json` wire
variant — either a recognized control message or arbitrary application
JSON (§4.1: parsing to the control union is partial, unrecognized `method`
values are "not this protocol"). -/
inductive JsonPayload where
  | state (sd : StateData)
  | defaultConfig (cd : ConfigData)
  | requestState
  | requestDefaultConfig
  | setConfig (cd : ConfigData)
  | app (raw : String)
deriving DecidableEq, Repr

/-- Modelled from the spec: the wire-level `Protocol` tagged union of
`holochain_net_connection::protocol::Protocol` (its source is not part of the
shown slice; §3 of the spec: a generic JSON payload, a latency probe pair
carrying floating-point millisecond timestamps, a readiness signal with no
payload, and other kinds). -/
inductive Protocol where
  | json (payload : JsonPayload)
  | pong (orig recv : Rat)
  | ping (orig : Rat)
  | p2pReady
  | namedBinary (name : String)
deriving DecidableEq, Repr

/-- Modelled from the spec: `ProtocolWrapper::try_from(&Protocol)` — the
partial parse of a generic wire message into the control union; only `json`
payloads carrying a recognized control `method` parse, everything else is
"not this protocol" (§3, §4.1). -/
def tryFrom : Protocol → Option ProtocolWrapper
  | Protocol.json (JsonPayload.state sd) => some (ProtocolWrapper.state sd)
  | Protocol.json (JsonPayload.defaultConfig cd) => some (ProtocolWrapper.defaultConfig cd)
  | Protocol.json JsonPayload.requestState => some ProtocolWrapper.requestState
  | Protocol.json JsonPayload.requestDefaultConfig => some ProtocolWrapper.requestDefaultConfig
  | Protocol.json (JsonPayload.setConfig cd) => some (ProtocolWrapper.setConfig cd)
  | _ => none

/-- Modelled from the spec: the `.into()` conversion `ProtocolWrapper →
Protocol` — a control message encodes as the generic `json` variant carrying
its own method discriminant and fields (§4.1, §6). -/
def wrapperToProtocol : ProtocolWrapper → Protocol
  | ProtocolWrapper.requestState => Protocol.json JsonPayload.requestState
  | ProtocolWrapper.state sd => Protocol.json (JsonPayload.state sd)
  | ProtocolWrapper.requestDefaultConfig => Protocol.json JsonPayload.requestDefaultConfig
  | ProtocolWrapper.defaultConfig cd => Protocol.json (JsonPayload.defaultConfig cd)
  | ProtocolWrapper.setConfig cd => Protocol.json (JsonPayload.setConfig cd)

/-- The mutable fields of `IpcNetWorker` (the handler, relay and channel are
modelled as per-tick environment inputs). -/
structure IpcNetWorker where
  is_ready : Bool
  state : String
  last_state_millis : Rat
deriving DecidableEq, Repr

/-- The worker produced by `priv_new`: `is_ready = false`,
`state = "undefined"`, `last_state_millis = 0.0`. -/
def initialWorker : IpcNetWorker :=
  { is_ready := false, state := "undefined", last_state_millis := 0 }

/-- The environment one `tick` call runs against: the current wall clock
(`get_millis`), the result of `ipc_relay.tick()`, the at-most-one message
`ipc_relay_receiver.try_recv()` yields, and the outcome of `ipc_relay.send`
and of the owner's handler on each possible message (`none` = `Ok(())`,
`some e` = that call returns `Err(e)`). -/
structure TickEnv where
  now : Rat
  relayTick : Except String Bool
  inbound : Option Protocol
  sendErr : Protocol → Option String
  handlerErr : Protocol → Option String

/-- Everything observable about one `tick` call: the `NetResult<bool>` value,
the worker fields after the call (mutations persist even when `?` aborts),
the messages handed to `ipc_relay.send` in order, and the messages the
owner's handler was invoked on in order. -/
structure TickOut where
  result : Except String Bool
  worker : IpcNetWorker
  sent : List Protocol
  delivered : List Protocol
deriving Repr

/-- `IpcNetWorker::priv_check_init`: if more than 500 ms have elapsed since
`last_state_millis`, send `RequestState` through the relay and (only when the
send succeeded — `?` aborts first otherwise) record the current time.
Returns (worker after, messages handed to send, error if any). -/
def priv_check_init (w : IpcNetWorker) (env : TickEnv) :
    IpcNetWorker × List Protocol × Option String :=
  if env.now - w.last_state_millis > 500 then
    let msg := wrapperToProtocol ProtocolWrapper.requestState
    match env.sendErr msg with
    | some e => (w, [msg], some e)
    | none => ({ w with last_state_millis := env.now }, [msg], none)
  else (w, [], none)

/-- `IpcNetWorker::priv_handle_state`: set `state` to the reported label,
then, if the new label is `"need_config"`, send `RequestDefaultConfig`. -/
def priv_handle_state (w : IpcNetWorker) (env : TickEnv) (sd : StateData) :
    IpcNetWorker × List Protocol × Option String :=
  let w' := { w with state := sd.state }
  if w'.state = "need_config" then
    let msg := wrapperToProtocol ProtocolWrapper.requestDefaultConfig
    (w', [msg], env.sendErr msg)
  else (w', [], none)

/-- `IpcNetWorker::priv_handle_default_config`: while `state` is
`"need_config"`, echo the received config blob back as `SetConfig`. -/
def priv_handle_default_config (w : IpcNetWorker) (env : TickEnv) (cd : ConfigData) :
    IpcNetWorker × List Protocol × Option String :=
  if w.state = "need_config" then
    let msg := wrapperToProtocol (ProtocolWrapper.setConfig { config := cd.config })
    (w, [msg], env.sendErr msg)
  else (w, [], none)

/-- Lines 53–55 of `tick`: `if &self.state != "ready" { self.priv_check_init()?; }`. -/
def checkInitStep (w : IpcNetWorker) (env : TickEnv) :
    IpcNetWorker × List Protocol × Option String :=
  if w.state ≠ "ready" then priv_check_init w env
  else (w, ([] : List Protocol), (none : Option String))

/-- Lines 64–74 of `tick`: interpret a drained message as a control message
(`ProtocolWrapper::try_from`), dispatching to `priv_handle_state` /
`priv_handle_default_config`; other tags (or no parse) have no effect. -/
def handleControl (w : IpcNetWorker) (env : TickEnv) (data : Protocol) :
    IpcNetWorker × List Protocol × Option String :=
  match tryFrom data with
  | some (ProtocolWrapper.state sd) => priv_handle_state w env sd
  | some (ProtocolWrapper.defaultConfig cd) => priv_handle_default_config w env cd
  | _ => (w, ([] : List Protocol), (none : Option String))

/-- `IpcNetWorker::tick` (`NetWorker` impl): probe when not ready, tick the
relay, drain at most one inbound message, interpret it as a control message,
forward the raw message to the owner's handler, and announce readiness once. -/
def tick (w : IpcNetWorker) (env : TickEnv) : TickOut :=
  match checkInitStep w env with
  | (w1, sent1, some e) => ⟨Except.error e, w1, sent1, []⟩
  | (w1, sent1, none) =>
    match env.relayTick with
    | Except.error e => ⟨Except.error e, w1, sent1, []⟩
    | Except.ok relayDid =>
      match env.inbound with
      | none => ⟨Except.ok relayDid, w1, sent1, []⟩
      | some data =>
        match handleControl w1 env data with
        | (w2, sent2, some e) => ⟨Except.error e, w2, sent1 ++ sent2, []⟩
        | (w2, sent2, none) =>
          match env.handlerErr data with
          | some e => ⟨Except.error e, w2, sent1 ++ sent2, [data]⟩
          | none =>
            if w2.is_ready = false ∧ w2.state = "ready" then
              let w3 := { w2 with is_ready := true }
              match env.handlerErr Protocol.p2pReady with
              | some e => ⟨Except.error e, w3, sent1 ++ sent2, [data, Protocol.p2pReady]⟩
              | none => ⟨Except.ok true, w3, sent1 ++ sent2, [data, Protocol.p2pReady]⟩
            else ⟨Except.ok true, w2, sent1 ++ sent2, [data]⟩

/-- Run a sequence of `tick` calls (the owner keeps polling; errors do not
stop the loop — the worker remains usable), collecting every message the
owner's handler received, in order. -/
def runTicks (w : IpcNetWorker) (envs : List TickEnv) : IpcNetWorker × List Protocol :=
  match envs with
  | [] => (w, [])
  | env :: rest =>
    let out := tick w env
    let tail := runTicks out.worker rest
    (tail.1, out.delivered ++ tail.2)

/-- Number of synthetic readiness events in a handler-delivery trace. -/
def countP2pReady : List Protocol → Nat
  | [] => 0
  | Protocol.p2pReady :: rest => countP2pReady rest + 1
  | _ :: rest => countP2pReady rest

/-- A parsed JSON value, as `serde_json::Value` (arrays are not needed by the
configuration checks and are folded into `other`). -/
inductive JsonValue where
  | null
  | bool (b : Bool)
  | num (q : Rat)
  | str (s : String)
  | obj (kvs : List (String × JsonValue))
  | other

/-- `serde_json::Value`'s `Index<&str>`: field of an object, `Null` when the
key is missing or the value is not an object (`config["socketType"]`). -/
def JsonValue.index (v : JsonValue) (key : String) : JsonValue :=
  match v with
  | JsonValue.obj kvs =>
    match kvs.lookup key with
    | some x => x
    | none => JsonValue.null
  | _ => JsonValue.null

/-- `serde_json::Value::as_str`. -/
def JsonValue.asStr : JsonValue → Option String
  | JsonValue.str s => some s
  | _ => none

/-- `serde_json::Value::as_bool`. -/
def JsonValue.asBool : JsonValue → Option Bool
  | JsonValue.bool b => some b
  | _ => none

/-- `serde_json::Value`'s `PartialEq<&str>`: equal exactly when the value is a
JSON string with those contents (`config["socketType"] != "zmq"`). -/
def JsonValue.eqStr : JsonValue → String → Bool
  | JsonValue.str s, t => s = t
  | _, _ => false

/-- The configuration validation prefix of `IpcNetWorker::new` (lines
103–113), acting on the already-parsed config blob: it runs before
`priv_new` creates the relay, so before any transport I/O. Returns the
extracted `(uri, block_connect)` pair on success. -/
def newParseConfig (config : JsonValue) : Except String (String × Bool) :=
  if (config.index "socketType").eqStr "zmq" = false then
    Except.error "unexpected socketType"
  else
    match (config.index "ipcUri").asStr with
    | none => Except.error "config.ipcUri is required"
    | some uri =>
      let bc :=
        match (config.index "blockConnect").asBool with
        | some b => b
        | none => false
      Except.ok (uri, bc)

/-! ## Structural lemmas about the tick sub-steps -/

theorem priv_check_init_quiet (w : IpcNetWorker) (env : TickEnv)
    (h : ¬ env.now - w.last_state_millis > 500) :
    priv_check_init w env = (w, [], none) := by
  simp [priv_check_init, h]

theorem priv_check_init_send_ok (w : IpcNetWorker) (env : TickEnv)
    (h : env.now - w.last_state_millis > 500)
    (hs : env.sendErr (wrapperToProtocol ProtocolWrapper.requestState) = none) :
    priv_check_init w env =
      ({ w with last_state_millis := env.now },
        [wrapperToProtocol ProtocolWrapper.requestState], none) := by
  simp [priv_check_init, h, hs]

theorem checkInitStep_fields (w : IpcNetWorker) (env : TickEnv) :
    (checkInitStep w env).1.is_ready = w.is_ready ∧
    (checkInitStep w env).1.state = w.state ∧
    ∀ p ∈ (checkInitStep w env).2.1, p = wrapperToProtocol ProtocolWrapper.requestState := by
  by_cases hr : w.state = "ready"
  · simp [checkInitStep, hr]
  · by_cases ht : env.now - w.last_state_millis > 500
    · cases hse : env.sendErr (wrapperToProtocol ProtocolWrapper.requestState) with
      | none => simp [checkInitStep, priv_check_init, hr, ht, hse]
      | some e => simp [checkInitStep, priv_check_init, hr, ht, hse]
    · simp [checkInitStep, priv_check_init, hr, ht]

theorem checkInitStep_no_err (w : IpcNetWorker) (env : TickEnv)
    (hs : env.sendErr (wrapperToProtocol ProtocolWrapper.requestState) = none) :
    (checkInitStep w env).2.2 = none := by
  by_cases hr : w.state = "ready"
  · simp [checkInitStep, hr]
  · by_cases ht : env.now - w.last_state_millis > 500
    · simp [checkInitStep, priv_check_init, hr, ht, hs]
    · simp [checkInitStep, priv_check_init, hr, ht]

theorem checkInitStep_ready (w : IpcNetWorker) (env : TickEnv)
    (h : w.state = "ready") : checkInitStep w env = (w, [], none) := by
  simp [checkInitStep, h]

theorem checkInitStep_recent (w : IpcNetWorker) (env : TickEnv)
    (h : ¬ env.now - w.last_state_millis > 500) :
    checkInitStep w env = (w, [], none) := by
  by_cases hr : w.state = "ready"
  · simp [checkInitStep, hr]
  · simp [checkInitStep, hr, priv_check_init_quiet w env h]

theorem handleControl_preserve (w : IpcNetWorker) (env : TickEnv) (data : Protocol) :
    (handleControl w env data).1.is_ready = w.is_ready ∧
    (handleControl w env data).1.last_state_millis = w.last_state_millis := by
  unfold handleControl
  cases h : tryFrom data with
  | none => simp
  | some wrap =>
    cases wrap with
    | state sd =>
      by_cases hc : sd.state = "need_config" <;> simp [priv_handle_state, hc]
    | defaultConfig cd =>
      by_cases hc : w.state = "need_config" <;> simp [priv_handle_default_config, hc]
    | requestState => simp
    | requestDefaultConfig => simp
    | setConfig cd => simp

theorem handleControl_state_shape (w : IpcNetWorker) (env : TickEnv) (data : Protocol) :
    (handleControl w env data).1.state = w.state ∨
    ∃ sd, tryFrom data = some (ProtocolWrapper.state sd) ∧
      (handleControl w env data).1.state = sd.state := by
  unfold handleControl
  cases h : tryFrom data with
  | none => left; rfl
  | some wrap =>
    cases wrap with
    | state sd =>
      right
      refine ⟨sd, rfl, ?_⟩
      by_cases hc : sd.state = "need_config" <;> simp [priv_handle_state, hc]
    | defaultConfig cd =>
      left
      by_cases hc : w.state = "need_config" <;> simp [priv_handle_default_config, hc]
    | requestState => left; rfl
    | requestDefaultConfig => left; rfl
    | setConfig cd => left; rfl

theorem handleControl_sent_shape (w : IpcNetWorker) (env : TickEnv) (data : Protocol) :
    ∀ p ∈ (handleControl w env data).2.1,
      p = wrapperToProtocol ProtocolWrapper.requestDefaultConfig ∨
      ∃ cd, p = wrapperToProtocol (ProtocolWrapper.setConfig cd) := by
  unfold handleControl
  cases h : tryFrom data with
  | none => simp
  | some wrap =>
    cases wrap with
    | state sd =>
      by_cases hc : sd.state = "need_config" <;> simp [priv_handle_state, hc]
    | defaultConfig cd =>
      by_cases hc : w.state = "need_config"
      · intro p hp
        simp [priv_handle_default_config, hc] at hp
        exact Or.inr ⟨{ config := cd.config }, hp⟩
      · simp [priv_handle_default_config, hc]
    | requestState => simp
    | requestDefaultConfig => simp
    | setConfig cd => simp

theorem countP2pReady_append (a b : List Protocol) :
    countP2pReady (a ++ b) = countP2pReady a + countP2pReady b := by
  induction a with
  | nil => simp [countP2pReady]
  | cons x rest ih =>
    cases x <;> simp [countP2pReady, ih]
    omega

theorem countP2pReady_single (p : Protocol) (h : p ≠ Protocol.p2pReady) :
    countP2pReady [p] = 0 := by
  cases p <;> simp [countP2pReady] at h ⊢

theorem countP2pReady_pair (p : Protocol) (h : p ≠ Protocol.p2pReady) :
    countP2pReady [p, Protocol.p2pReady] = 1 := by
  cases p <;> simp [countP2pReady] at h ⊢

theorem tick_is_ready_mono (w : IpcNetWorker) (env : TickEnv) (h : w.is_ready = true) :
    (tick w env).worker.is_ready = true := by
  have hf := checkInitStep_fields w env
  rcases h1 : checkInitStep w env with ⟨w1, sent1, e1⟩
  rw [h1] at hf
  have hir : w1.is_ready = w.is_ready := hf.1
  have hw1 : w1.is_ready = true := hir.trans h
  cases e1 with
  | some e => unfold tick; simp only [h1]; exact hw1
  | none =>
    cases hrt : env.relayTick with
    | error e => unfold tick; simp only [h1, hrt]; exact hw1
    | ok b =>
      cases hin : env.inbound with
      | none => unfold tick; simp only [h1, hrt, hin]; exact hw1
      | some data =>
        have hp := handleControl_preserve w1 env data
        rcases h2 : handleControl w1 env data with ⟨w2, sent2, e2⟩
        rw [h2] at hp
        have hir2 : w2.is_ready = w1.is_ready := hp.1
        have hw2 : w2.is_ready = true := hir2.trans hw1
        cases e2 with
        | some e => unfold tick; simp only [h1, hrt, hin, h2]; exact hw2
        | none =>
          cases hhe : env.handlerErr data with
          | some e => unfold tick; simp only [h1, hrt, hin, h2, hhe]; exact hw2
          | none =>
            unfold tick
            simp only [h1, hrt, hin, h2, hhe]
            by_cases hflip : w2.is_ready = false ∧ w2.state = "ready"
            · rw [if_pos hflip]
              cases hhp : env.handlerErr Protocol.p2pReady <;> simp [hhp]
            · rw [if_neg hflip]
              exact hw2

theorem tick_count (w : IpcNetWorker) (env : TickEnv)
    (hin0 : env.inbound ≠ some Protocol.p2pReady) :
    countP2pReady (tick w env).delivered =
      if w.is_ready = true then 0 else ((tick w env).worker.is_ready).toNat := by
  have hf := checkInitStep_fields w env
  rcases h1 : checkInitStep w env with ⟨w1, sent1, e1⟩
  rw [h1] at hf
  have hir : w1.is_ready = w.is_ready := hf.1
  cases e1 with
  | some e =>
    unfold tick
    simp only [h1, countP2pReady]
    rw [hir]
    cases w.is_ready <;> simp
  | none =>
    cases hrt : env.relayTick with
    | error e =>
      unfold tick
      simp only [h1, hrt, countP2pReady]
      rw [hir]
      cases w.is_ready <;> simp
    | ok b =>
      cases hin : env.inbound with
      | none =>
        unfold tick
        simp only [h1, hrt, hin, countP2pReady]
        rw [hir]
        cases w.is_ready <;> simp
      | some data =>
        have hdata : data ≠ Protocol.p2pReady := by
          intro hd
          exact hin0 (hd ▸ hin)
        have hp := handleControl_preserve w1 env data
        rcases h2 : handleControl w1 env data with ⟨w2, sent2, e2⟩
        rw [h2] at hp
        have hw2 : w2.is_ready = w.is_ready := hp.1.trans hir
        cases e2 with
        | some e =>
          unfold tick
          simp only [h1, hrt, hin, h2, countP2pReady]
          rw [hw2]
          cases w.is_ready <;> simp
        | none =>
          cases hhe : env.handlerErr data with
          | some e =>
            unfold tick
            simp only [h1, hrt, hin, h2, hhe]
            rw [countP2pReady_single data hdata, hw2]
            cases w.is_ready <;> simp
          | none =>
            unfold tick
            simp only [h1, hrt, hin, h2, hhe]
            by_cases hflip : w2.is_ready = false ∧ w2.state = "ready"
            · have hwf : w.is_ready = false := hw2 ▸ hflip.1
              rw [if_pos hflip]
              cases hhp : env.handlerErr Protocol.p2pReady <;>
                simp [countP2pReady_pair data hdata, hwf]
            · rw [if_neg hflip]
              rw [countP2pReady_single data hdata, hw2]
              cases w.is_ready <;> simp

theorem runTicks_is_ready_mono (envs : List TickEnv) :
    ∀ w : IpcNetWorker, w.is_ready = true → (runTicks w envs).1.is_ready = true := by
  induction envs with
  | nil => intro w h; simpa [runTicks] using h
  | cons e rest ih =>
    intro w h
    simp only [runTicks]
    exact ih (tick w e).worker (tick_is_ready_mono w e h)

theorem runTicks_count (envs : List TickEnv) :
    ∀ w : IpcNetWorker, (∀ e ∈ envs, e.inbound ≠ some Protocol.p2pReady) →
      countP2pReady (runTicks w envs).2 =
        if w.is_ready = true then 0 else ((runTicks w envs).1.is_ready).toNat := by
  induction envs with
  | nil =>
    intro w _
    cases hw : w.is_ready <;> simp [runTicks, countP2pReady, hw]
  | cons e rest ih =>
    intro w h
    have he : e.inbound ≠ some Protocol.p2pReady := h e (by simp)
    have hrest : ∀ x ∈ rest, x.inbound ≠ some Protocol.p2pReady := fun x hx => h x (by simp [hx])
    simp only [runTicks]
    rw [countP2pReady_append, tick_count w e he, ih (tick w e).worker hrest]
    by_cases hw : w.is_ready = true
    · have hw2 : (tick w e).worker.is_ready = true := tick_is_ready_mono w e hw
      have hw3 := runTicks_is_ready_mono rest (tick w e).worker hw2
      simp [hw, hw2, hw3]
    · by_cases hw2 : (tick w e).worker.is_ready = true
      · have hw3 := runTicks_is_ready_mono rest (tick w e).worker hw2
        simp [hw, hw2, hw3]
      · simp [hw, hw2]

theorem handleControl_no_err (w : IpcNetWorker) (env : TickEnv) (data : Protocol)
    (hs : ∀ p, env.sendErr p = none) :
    (handleControl w env data).2.2 = none := by
  unfold handleControl
  cases h : tryFrom data with
  | none => simp
  | some wrap =>
    cases wrap with
    | state sd =>
      by_cases hc : sd.state = "need_config" <;> simp [priv_handle_state, hc, hs]
    | defaultConfig cd =>
      by_cases hc : w.state = "need_config" <;> simp [priv_handle_default_config, hc, hs]
    | requestState => simp
    | requestDefaultConfig => simp
    | setConfig cd => simp

theorem tick_shape (w : IpcNetWorker) (env : TickEnv) :
    ∃ w1 sent1 e1 sent2,
      checkInitStep w env = (w1, sent1, e1) ∧
      (tick w env).worker.last_state_millis = w1.last_state_millis ∧
      (tick w env).sent = sent1 ++ sent2 ∧
      (∀ p ∈ sent2, p = wrapperToProtocol ProtocolWrapper.requestDefaultConfig ∨
        ∃ cd, p = wrapperToProtocol (ProtocolWrapper.setConfig cd)) := by
  rcases h1 : checkInitStep w env with ⟨w1, sent1, e1⟩
  refine ⟨w1, sent1, e1, ?_⟩
  cases e1 with
  | some e =>
    refine ⟨[], rfl, ?_, ?_, by simp⟩ <;> unfold tick <;> simp [h1]
  | none =>
    cases hrt : env.relayTick with
    | error e =>
      refine ⟨[], rfl, ?_, ?_, by simp⟩ <;> unfold tick <;> simp [h1, hrt]
    | ok b =>
      cases hin : env.inbound with
      | none =>
        refine ⟨[], rfl, ?_, ?_, by simp⟩ <;> unfold tick <;> simp [h1, hrt, hin]
      | some data =>
        have hp := handleControl_preserve w1 env data
        have hss := handleControl_sent_shape w1 env data
        rcases h2 : handleControl w1 env data with ⟨w2, sent2, e2⟩
        rw [h2] at hp hss
        refine ⟨sent2, rfl, ?_, ?_, hss⟩
        · cases e2 with
          | some e => unfold tick; simp only [h1, hrt, hin, h2]; exact hp.2
          | none =>
            cases hhe : env.handlerErr data with
            | some e => unfold tick; simp only [h1, hrt, hin, h2, hhe]; exact hp.2
            | none =>
              unfold tick
              simp only [h1, hrt, hin, h2, hhe]
              by_cases hflip : w2.is_ready = false ∧ w2.state = "ready"
              · rw [if_pos hflip]
                cases hhp : env.handlerErr Protocol.p2pReady <;> simpa [hhp] using hp.2
              · rw [if_neg hflip]
                exact hp.2
        · cases e2 with
          | some e => unfold tick; simp only [h1, hrt, hin, h2]
          | none =>
            cases hhe : env.handlerErr data with
            | some e => unfold tick; simp only [h1, hrt, hin, h2, hhe]
            | none =>
              unfold tick
              simp only [h1, hrt, hin, h2, hhe]
              by_cases hflip : w2.is_ready = false ∧ w2.state = "ready"
              · rw [if_pos hflip]
                cases hhp : env.handlerErr Protocol.p2pReady <;> simp [hhp]
              · rw [if_neg hflip]

theorem tick_state_shape (w : IpcNetWorker) (env : TickEnv) :
    (tick w env).worker.state = w.state ∨
    ∃ data sd, env.inbound = some data ∧ tryFrom data = some (ProtocolWrapper.state sd) ∧
      (tick w env).worker.state = sd.state := by
  have hf := checkInitStep_fields w env
  rcases h1 : checkInitStep w env with ⟨w1, sent1, e1⟩
  rw [h1] at hf
  have hst : w1.state = w.state := hf.2.1
  cases e1 with
  | some e => left; unfold tick; simp only [h1]; exact hst
  | none =>
    cases hrt : env.relayTick with
    | error e => left; unfold tick; simp only [h1, hrt]; exact hst
    | ok b =>
      cases hin : env.inbound with
      | none => left; unfold tick; simp only [h1, hrt, hin]; exact hst
      | some data =>
        have hshape := handleControl_state_shape w1 env data
        rcases h2 : handleControl w1 env data with ⟨w2, sent2, e2⟩
        rw [h2] at hshape
        have hworker : (tick w env).worker.state = w2.state := by
          cases e2 with
          | some e => unfold tick; simp only [h1, hrt, hin, h2]
          | none =>
            cases hhe : env.handlerErr data with
            | some e => unfold tick; simp only [h1, hrt, hin, h2, hhe]
            | none =>
              unfold tick
              simp only [h1, hrt, hin, h2, hhe]
              by_cases hflip : w2.is_ready = false ∧ w2.state = "ready"
              · rw [if_pos hflip]
                cases hhp : env.handlerErr Protocol.p2pReady <;> simp [hhp]
              · rw [if_neg hflip]
        rcases hshape with hsame | ⟨sd, htf, hnew⟩
        · left
          rw [hworker, hsame, hst]
        · right
          exact ⟨data, sd, rfl, htf, hworker.trans hnew⟩

theorem tick_drain_shape (w : IpcNetWorker) (env : TickEnv) (data : Protocol) (b : Bool)
    (hs : env.sendErr (wrapperToProtocol ProtocolWrapper.requestState) = none)
    (hrt : env.relayTick = Except.ok b)
    (hin : env.inbound = some data) :
    ∃ w1 sent1,
      checkInitStep w env = (w1, sent1, none) ∧
      w1.is_ready = w.is_ready ∧ w1.state = w.state ∧
      (∀ p ∈ sent1, p = wrapperToProtocol ProtocolWrapper.requestState) ∧
      (tick w env).sent = sent1 ++ (handleControl w1 env data).2.1 ∧
      (tick w env).worker.state = (handleControl w1 env data).1.state := by
  have hf := checkInitStep_fields w env
  have hne := checkInitStep_no_err w env hs
  rcases h1 : checkInitStep w env with ⟨w1, sent1, e1⟩
  rw [h1] at hf hne
  have he1 : e1 = none := hne
  subst he1
  refine ⟨w1, sent1, rfl, hf.1, hf.2.1, hf.2.2, ?_, ?_⟩ <;>
  · rcases h2 : handleControl w1 env data with ⟨w2, sent2, e2⟩
    cases e2 with
    | some e => unfold tick; simp only [h1, hrt, hin, h2]
    | none =>
      cases hhe : env.handlerErr data with
      | some e => unfold tick; simp only [h1, hrt, hin, h2, hhe]
      | none =>
        unfold tick
        simp only [h1, hrt, hin, h2, hhe]
        by_cases hflip : w2.is_ready = false ∧ w2.state = "ready"
        · rw [if_pos hflip]
          cases hhp : env.handlerErr Protocol.p2pReady <;> simp [hhp]
        · rw [if_neg hflip]

/-! ## Claim theorems -/

/-- C1: over any sequence of `tick` calls from a fresh worker, the synthetic
readiness event `Protocol::P2pReady` is delivered to the owner's handler
exactly once — the tick in which the connection-state label first becomes
`"ready"` delivers the raw report followed by the one readiness event, the
total number of readiness deliveries equals one exactly when readiness has
been reached, and no further `"ready"` reports ever produce another. -/
theorem readiness_event_exactly_once :
    (∀ envs : List TickEnv, (∀ e ∈ envs, e.inbound ≠ some Protocol.p2pReady) →
      countP2pReady (runTicks initialWorker envs).2 =
        if (runTicks initialWorker envs).1.is_ready = true then 1 else 0) ∧
    (∀ (w : IpcNetWorker) (env : TickEnv) (sd : StateData) (b : Bool),
      w.is_ready = false →
      env.sendErr (wrapperToProtocol ProtocolWrapper.requestState) = none →
      env.relayTick = Except.ok b →
      env.inbound = some (Protocol.json (JsonPayload.state sd)) →
      sd.state = "ready" →
      env.handlerErr (Protocol.json (JsonPayload.state sd)) = none →
      (tick w env).delivered =
        [Protocol.json (JsonPayload.state sd), Protocol.p2pReady]) := by
  constructor
  · intro envs h
    rw [runTicks_count envs initialWorker h]
    have : initialWorker.is_ready = false := rfl
    rw [this]
    cases hfin : (runTicks initialWorker envs).1.is_ready <;> simp
  · intro w env sd b hw hs hrt hin hsd hhe
    have hf := checkInitStep_fields w env
    have hne := checkInitStep_no_err w env hs
    rcases h1 : checkInitStep w env with ⟨w1, sent1, e1⟩
    rw [h1] at hf hne
    have he1 : e1 = none := hne
    subst he1
    have hir : w1.is_ready = w.is_ready := hf.1
    have h2 : handleControl w1 env (Protocol.json (JsonPayload.state sd)) =
        ({ w1 with state := sd.state }, [], none) := by
      simp [handleControl, tryFrom, priv_handle_state, hsd]
    unfold tick
    simp only [h1, hrt, hin, h2, hhe]
    have hflip : ({ w1 with state := sd.state } : IpcNetWorker).is_ready = false ∧
        ({ w1 with state := sd.state } : IpcNetWorker).state = "ready" := by
      constructor
      · simpa using hir.trans hw
      · simpa using hsd
    rw [if_pos hflip]
    cases hhp : env.handlerErr Protocol.p2pReady <;> simp [hhp]

/-- Witness for C1 at a concrete run: one tick that drains a `state: ready`
report from a fresh worker. -/
theorem readiness_event_exactly_once_witness :
    (countP2pReady
        (runTicks initialWorker
          [{ now := 100, relayTick := Except.ok false,
             inbound := some (Protocol.json (JsonPayload.state ⟨"ready", "i", []⟩)),
             sendErr := fun _ => none, handlerErr := fun _ => none }]).2 =
      if (runTicks initialWorker
          [{ now := 100, relayTick := Except.ok false,
             inbound := some (Protocol.json (JsonPayload.state ⟨"ready", "i", []⟩)),
             sendErr := fun _ => none, handlerErr := fun _ => none }]).1.is_ready = true
      then 1 else 0) ∧
    (tick initialWorker
        { now := 100, relayTick := Except.ok false,
          inbound := some (Protocol.json (JsonPayload.state ⟨"ready", "i", []⟩)),
          sendErr := fun _ => none, handlerErr := fun _ => none }).delivered =
      [Protocol.json (JsonPayload.state ⟨"ready", "i", []⟩), Protocol.p2pReady] := by
  constructor
  · exact readiness_event_exactly_once.1 _ (by simp)
  · exact readiness_event_exactly_once.2 initialWorker _ ⟨"ready", "i", []⟩ false
      rfl rfl rfl rfl rfl rfl

/-- C2: a tick that processes an inbound `state` control report sets the
connection-state label to the reported string, and when the new label is
`"need_config"` it hands a `requestDefaultConfig` message to the relay within
that same tick, before `tick` returns. -/
theorem state_report_sets_label_and_requests_config
    (w : IpcNetWorker) (env : TickEnv) (sd : StateData) (b : Bool)
    (hs : env.sendErr (wrapperToProtocol ProtocolWrapper.requestState) = none)
    (hrt : env.relayTick = Except.ok b)
    (hin : env.inbound = some (Protocol.json (JsonPayload.state sd))) :
    (tick w env).worker.state = sd.state ∧
    (sd.state = "need_config" →
      wrapperToProtocol ProtocolWrapper.requestDefaultConfig ∈ (tick w env).sent) := by
  obtain ⟨w1, sent1, h1, hir, hst, hsent1, hsent, hstate⟩ :=
    tick_drain_shape w env (Protocol.json (JsonPayload.state sd)) b hs hrt hin
  have h2 : handleControl w1 env (Protocol.json (JsonPayload.state sd)) =
      priv_handle_state w1 env sd := rfl
  rw [h2] at hsent hstate
  constructor
  · rw [hstate]
    by_cases hc : sd.state = "need_config" <;> simp [priv_handle_state, hc]
  · intro hc
    rw [hsent]
    simp [priv_handle_state, hc]

/-- Witness for C2: fresh worker processing a `state: need_config` report. -/
theorem state_report_sets_label_and_requests_config_witness :
    (tick initialWorker
        { now := 100, relayTick := Except.ok false,
          inbound := some (Protocol.json (JsonPayload.state ⟨"need_config", "i", []⟩)),
          sendErr := fun _ => none, handlerErr := fun _ => none }).worker.state =
      "need_config" ∧
    ("need_config" = "need_config" →
      wrapperToProtocol ProtocolWrapper.requestDefaultConfig ∈
        (tick initialWorker
          { now := 100, relayTick := Except.ok false,
            inbound := some (Protocol.json (JsonPayload.state ⟨"need_config", "i", []⟩)),
            sendErr := fun _ => none, handlerErr := fun _ => none }).sent) :=
  state_report_sets_label_and_requests_config initialWorker _ ⟨"need_config", "i", []⟩ false
    rfl rfl rfl

/-- C3: a `defaultConfig` report processed while the label is `"need_config"`
causes a `setConfig` message echoing the received blob verbatim to be handed
to the relay in that tick; in any other state no `setConfig` is sent. -/
theorem default_config_echo
    (w : IpcNetWorker) (env : TickEnv) (cd : ConfigData) (b : Bool)
    (hs : env.sendErr (wrapperToProtocol ProtocolWrapper.requestState) = none)
    (hrt : env.relayTick = Except.ok b)
    (hin : env.inbound = some (Protocol.json (JsonPayload.defaultConfig cd))) :
    (w.state = "need_config" →
      wrapperToProtocol (ProtocolWrapper.setConfig { config := cd.config }) ∈
        (tick w env).sent) ∧
    (w.state ≠ "need_config" →
      ∀ cd' : ConfigData,
        wrapperToProtocol (ProtocolWrapper.setConfig cd') ∉ (tick w env).sent) := by
  obtain ⟨w1, sent1, h1, hir, hst, hsent1, hsent, hstate⟩ :=
    tick_drain_shape w env (Protocol.json (JsonPayload.defaultConfig cd)) b hs hrt hin
  have h2 : handleControl w1 env (Protocol.json (JsonPayload.defaultConfig cd)) =
      priv_handle_default_config w1 env cd := rfl
  rw [h2] at hsent
  constructor
  · intro hc
    have hc1 : w1.state = "need_config" := hst.trans hc
    rw [hsent]
    simp [priv_handle_default_config, hc1]
  · intro hc cd' hmem
    have hc1 : ¬ w1.state = "need_config" := by rw [hst]; exact hc
    rw [hsent] at hmem
    simp only [priv_handle_default_config, hc1, if_false, List.append_nil] at hmem
    have := hsent1 _ hmem
    simp [wrapperToProtocol] at this

/-- Witness for C3: a worker in `need_config` receiving the blob `"X"`, and a
fresh worker (label `undefined`) receiving the same blob. -/
theorem default_config_echo_witness :
    (({ is_ready := false, state := "need_config", last_state_millis := 0 } :
        IpcNetWorker).state = "need_config" →
      wrapperToProtocol (ProtocolWrapper.setConfig { config := "X" }) ∈
        (tick { is_ready := false, state := "need_config", last_state_millis := 0 }
          { now := 100, relayTick := Except.ok false,
            inbound := some (Protocol.json (JsonPayload.defaultConfig ⟨"X"⟩)),
            sendErr := fun _ => none, handlerErr := fun _ => none }).sent) ∧
    (initialWorker.state ≠ "need_config" →
      ∀ cd' : ConfigData,
        wrapperToProtocol (ProtocolWrapper.setConfig cd') ∉
          (tick initialWorker
            { now := 100, relayTick := Except.ok false,
              inbound := some (Protocol.json (JsonPayload.defaultConfig ⟨"X"⟩)),
              sendErr := fun _ => none, handlerErr := fun _ => none }).sent) :=
  ⟨(default_config_echo
      { is_ready := false, state := "need_config", last_state_millis := 0 }
      _ ⟨"X"⟩ false rfl rfl rfl).1,
   (default_config_echo initialWorker _ ⟨"X"⟩ false rfl rfl rfl).2⟩

/-- Counterexample for C4: with exactly 500 ms elapsed since the last probe
("at least 500 ms" in the claim's sense) and the label not `ready`, the code
sends no probe and leaves the timestamp unchanged — `priv_check_init` uses
the strict comparison `now - last_state_millis > 500.0`. -/
theorem probe_cadence_counterexample :
    initialWorker.state ≠ "ready" ∧
    (500 : Rat) - initialWorker.last_state_millis ≥ 500 ∧
    (tick initialWorker
        { now := 500, relayTick := Except.ok false, inbound := none,
          sendErr := fun _ => none, handlerErr := fun _ => none }).sent = [] ∧
    (tick initialWorker
        { now := 500, relayTick := Except.ok false, inbound := none,
          sendErr := fun _ => none, handlerErr := fun _ => none
        }).worker.last_state_millis = initialWorker.last_state_millis := by
  refine ⟨by simp [initialWorker], by norm_num [initialWorker], ?_, ?_⟩ <;>
  · have h : ¬((500 : Rat) < 500) := by norm_num
    simp [tick, checkInitStep, priv_check_init, initialWorker, h]

/-- C4 amended: on every tick where the label is not `"ready"` and strictly
more than 500 ms have elapsed since the last probe (and the relay accepts the
send), a `requestState` probe is handed to the relay and the last-probe
timestamp becomes the current time; when the label is `"ready"` or at most
500 ms have elapsed, no probe is sent and the timestamp is unchanged. -/
theorem probe_cadence (w : IpcNetWorker) (env : TickEnv) :
    (w.state ≠ "ready" → env.now - w.last_state_millis > 500 →
      env.sendErr (wrapperToProtocol ProtocolWrapper.requestState) = none →
      wrapperToProtocol ProtocolWrapper.requestState ∈ (tick w env).sent ∧
      (tick w env).worker.last_state_millis = env.now) ∧
    ((w.state = "ready" ∨ ¬ env.now - w.last_state_millis > 500) →
      wrapperToProtocol ProtocolWrapper.requestState ∉ (tick w env).sent ∧
      (tick w env).worker.last_state_millis = w.last_state_millis) := by
  obtain ⟨w1, sent1, e1, sent2, h1, hmillis, hsent, hshape⟩ := tick_shape w env
  constructor
  · intro hr ht hsd
    have hcs : checkInitStep w env =
        ({ w with last_state_millis := env.now },
          [wrapperToProtocol ProtocolWrapper.requestState], none) := by
      simp [checkInitStep, hr, priv_check_init_send_ok w env ht hsd]
    rw [h1] at hcs
    simp only [Prod.mk.injEq] at hcs
    obtain ⟨hw1, hsent1, -⟩ := hcs
    constructor
    · rw [hsent, hsent1]
      simp
    · rw [hmillis, hw1]
  · intro hneg
    have hcs : checkInitStep w env = (w, [], none) := by
      rcases hneg with hr | ht
      · exact checkInitStep_ready w env hr
      · exact checkInitStep_recent w env ht
    rw [h1] at hcs
    simp only [Prod.mk.injEq] at hcs
    obtain ⟨hw1, hsent1, -⟩ := hcs
    constructor
    · rw [hsent, hsent1]
      simp only [List.nil_append]
      intro hmem
      rcases hshape _ hmem with hx | ⟨cd, hx⟩ <;> simp [wrapperToProtocol] at hx
    · rw [hmillis, hw1]

/-- Witness for the amended C4: a probe fires at 600 ms elapsed; none fires
at 100 ms elapsed. -/
theorem probe_cadence_witness :
    (wrapperToProtocol ProtocolWrapper.requestState ∈
        (tick initialWorker
          { now := 600, relayTick := Except.ok false, inbound := none,
            sendErr := fun _ => none, handlerErr := fun _ => none }).sent ∧
      (tick initialWorker
          { now := 600, relayTick := Except.ok false, inbound := none,
            sendErr := fun _ => none, handlerErr := fun _ => none
          }).worker.last_state_millis = 600) ∧
    (wrapperToProtocol ProtocolWrapper.requestState ∉
        (tick initialWorker
          { now := 100, relayTick := Except.ok false, inbound := none,
            sendErr := fun _ => none, handlerErr := fun _ => none }).sent ∧
      (tick initialWorker
          { now := 100, relayTick := Except.ok false, inbound := none,
            sendErr := fun _ => none, handlerErr := fun _ => none
          }).worker.last_state_millis = initialWorker.last_state_millis) :=
  ⟨(probe_cadence initialWorker _).1 (by simp [initialWorker])
      (by norm_num [initialWorker]) rfl,
   (probe_cadence initialWorker _).2 (Or.inr (by norm_num [initialWorker]))⟩

/-- Counterexample for C5: from a fresh worker, one tick draining a
`state: ready` report reaches the label `"ready"` (a reachable state), and a
following tick draining a `state: need_config` report moves the label back to
`"need_config"` — `priv_handle_state` overwrites the label unconditionally,
so the code does transition back out of `ready`. -/
theorem ready_label_downgrade_counterexample :
    (tick initialWorker
        { now := 100, relayTick := Except.ok false,
          inbound := some (Protocol.json (JsonPayload.state ⟨"ready", "i", []⟩)),
          sendErr := fun _ => none, handlerErr := fun _ => none }).worker.state =
      "ready" ∧
    (tick
        (tick initialWorker
          { now := 100, relayTick := Except.ok false,
            inbound := some (Protocol.json (JsonPayload.state ⟨"ready", "i", []⟩)),
            sendErr := fun _ => none, handlerErr := fun _ => none }).worker
        { now := 200, relayTick := Except.ok false,
          inbound := some (Protocol.json (JsonPayload.state ⟨"need_config", "i", []⟩)),
          sendErr := fun _ => none, handlerErr := fun _ => none }).worker.state =
      "need_config" := by
  have h1 : ¬((500 : Rat) < 100) := by norm_num
  constructor
  · simp [tick, checkInitStep, priv_check_init, handleControl, tryFrom, priv_handle_state,
      initialWorker, h1]
  · simp [tick, checkInitStep, priv_check_init, handleControl, tryFrom, priv_handle_state,
      initialWorker, h1]

/-- C5 amended: after the label reaches `"ready"`, the readiness flag is
never cleared, and the label itself changes only when an inbound `state`
report is drained — in which case it is overwritten with the reported value,
which may be an earlier state (the code permits a remote-initiated
downgrade); absent such a report the label stays `"ready"`. -/
theorem ready_label_changes_only_by_state_report (w : IpcNetWorker) (env : TickEnv)
    (hr : w.state = "ready") :
    (w.is_ready = true → (tick w env).worker.is_ready = true) ∧
    ((tick w env).worker.state = "ready" ∨
      ∃ data sd, env.inbound = some data ∧
        tryFrom data = some (ProtocolWrapper.state sd) ∧
        (tick w env).worker.state = sd.state) := by
  refine ⟨fun h => tick_is_ready_mono w env h, ?_⟩
  rcases tick_state_shape w env with h | h
  · left
    rw [h, hr]
  · right
    exact h

/-- Witness for the amended C5: a quiet tick on a ready worker keeps both the
flag and the label. -/
theorem ready_label_changes_only_by_state_report_witness :
    (({ is_ready := true, state := "ready", last_state_millis := 0 } :
        IpcNetWorker).is_ready = true →
      (tick { is_ready := true, state := "ready", last_state_millis := 0 }
          { now := 100, relayTick := Except.ok false, inbound := none,
            sendErr := fun _ => none,
            handlerErr := fun _ => none }).worker.is_ready = true) ∧
    ((tick { is_ready := true, state := "ready", last_state_millis := 0 }
          { now := 100, relayTick := Except.ok false, inbound := none,
            sendErr := fun _ => none, handlerErr := fun _ => none }).worker.state =
        "ready" ∨
      ∃ data sd,
        ({ now := 100, relayTick := Except.ok false, inbound := none,
           sendErr := fun _ => none, handlerErr := fun _ => none } :
            TickEnv).inbound = some data ∧
        tryFrom data = some (ProtocolWrapper.state sd) ∧
        (tick { is_ready := true, state := "ready", last_state_millis := 0 }
            { now := 100, relayTick := Except.ok false, inbound := none,
              sendErr := fun _ => none, handlerErr := fun _ => none }).worker.state =
          sd.state) :=
  ready_label_changes_only_by_state_report
    { is_ready := true, state := "ready", last_state_millis := 0 } _ rfl

/-- C6: when a tick drains a message and the relay sends and the handler
succeed, the raw message is forwarded to the owner's handler unmodified and
first — the handler trace of that tick is exactly the drained message, plus
the one-time readiness event when the label has just become `"ready"` —
whether or not the message parses as a recognized control message. -/
theorem drained_message_forwarded
    (w : IpcNetWorker) (env : TickEnv) (data : Protocol) (b : Bool)
    (hs : ∀ p, env.sendErr p = none)
    (hh : ∀ p, env.handlerErr p = none)
    (hrt : env.relayTick = Except.ok b)
    (hin : env.inbound = some data) :
    (tick w env).delivered = [data] ∨
    (tick w env).delivered = [data, Protocol.p2pReady] := by
  have hne := checkInitStep_no_err w env (hs _)
  rcases h1 : checkInitStep w env with ⟨w1, sent1, e1⟩
  rw [h1] at hne
  have he1 : e1 = none := hne
  subst he1
  have hce := handleControl_no_err w1 env data hs
  rcases h2 : handleControl w1 env data with ⟨w2, sent2, e2⟩
  rw [h2] at hce
  have he2 : e2 = none := hce
  subst he2
  unfold tick
  simp only [h1, hrt, hin, h2, hh]
  by_cases hflip : w2.is_ready = false ∧ w2.state = "ready"
  · rw [if_pos hflip]
    right
    rfl
  · rw [if_neg hflip]
    left
    rfl

/-- Witness for C6: an unrecognized application message is forwarded as-is
(left disjunct); a `state: ready` report is forwarded followed by the
readiness event (covered by the same theorem at another input). -/
theorem drained_message_forwarded_witness :
    (tick initialWorker
        { now := 100, relayTick := Except.ok false,
          inbound := some (Protocol.json (JsonPayload.app "hello")),
          sendErr := fun _ => none, handlerErr := fun _ => none }).delivered =
      [Protocol.json (JsonPayload.app "hello")] ∨
    (tick initialWorker
        { now := 100, relayTick := Except.ok false,
          inbound := some (Protocol.json (JsonPayload.app "hello")),
          sendErr := fun _ => none, handlerErr := fun _ => none }).delivered =
      [Protocol.json (JsonPayload.app "hello"), Protocol.p2pReady] :=
  drained_message_forwarded initialWorker _ (Protocol.json (JsonPayload.app "hello")) false
    (fun _ => rfl) (fun _ => rfl) rfl rfl

/-- C7: a tick with no pending inbound message, a relay reporting no work,
and less than 500 ms since the last probe changes no field, sends nothing,
invokes no handler callback, and returns `Ok(false)`. -/
theorem quiet_tick_noop (w : IpcNetWorker) (env : TickEnv)
    (hin : env.inbound = none)
    (hrt : env.relayTick = Except.ok false)
    (ht : env.now - w.last_state_millis < 500) :
    tick w env = ⟨Except.ok false, w, [], []⟩ := by
  have ht' : ¬ env.now - w.last_state_millis > 500 := not_lt.mpr (le_of_lt ht)
  unfold tick
  simp only [checkInitStep_recent w env ht', hrt, hin]

/-- Witness for C7: a fresh worker ticked at 100 ms. -/
theorem quiet_tick_noop_witness :
    tick initialWorker
        { now := 100, relayTick := Except.ok false, inbound := none,
          sendErr := fun _ => none, handlerErr := fun _ => none } =
      ⟨Except.ok false, initialWorker, [], []⟩ :=
  quiet_tick_noop initialWorker _ rfl rfl (by norm_num [initialWorker])

/-- C9: a tick that sends a `requestState` probe but whose relay reports no
work and drains no inbound message still returns `Ok(false)` — the probe send
is not counted as work done. -/
theorem probe_send_not_counted_as_work (w : IpcNetWorker) (env : TickEnv)
    (hr : w.state ≠ "ready")
    (ht : env.now - w.last_state_millis > 500)
    (hs : env.sendErr (wrapperToProtocol ProtocolWrapper.requestState) = none)
    (hrt : env.relayTick = Except.ok false)
    (hin : env.inbound = none) :
    (tick w env).result = Except.ok false ∧
    wrapperToProtocol ProtocolWrapper.requestState ∈ (tick w env).sent := by
  have hcs : checkInitStep w env =
      ({ w with last_state_millis := env.now },
        [wrapperToProtocol ProtocolWrapper.requestState], none) := by
    simp [checkInitStep, hr, priv_check_init_send_ok w env ht hs]
  unfold tick
  simp only [hcs, hrt, hin]
  exact ⟨trivial, by simp⟩

/-- Witness for C9: a fresh worker ticked at 600 ms with an idle relay. -/
theorem probe_send_not_counted_as_work_witness :
    (tick initialWorker
        { now := 600, relayTick := Except.ok false, inbound := none,
          sendErr := fun _ => none, handlerErr := fun _ => none }).result =
      Except.ok false ∧
    wrapperToProtocol ProtocolWrapper.requestState ∈
      (tick initialWorker
        { now := 600, relayTick := Except.ok false, inbound := none,
          sendErr := fun _ => none, handlerErr := fun _ => none }).sent :=
  probe_send_not_counted_as_work initialWorker _ (by simp [initialWorker])
    (by norm_num [initialWorker]) rfl rfl rfl

/-- C10: when the relay send performed during control interpretation fails —
the `requestDefaultConfig` send after a `need_config` state report, or the
`setConfig` send after a `defaultConfig` report — `tick` returns that error
and the raw message is never forwarded to the owner's handler, even though,
for a state report, the label has already been updated. -/
theorem control_send_failure_aborts :
    (∀ (w : IpcNetWorker) (env : TickEnv) (sd : StateData) (e : String) (b : Bool),
      env.sendErr (wrapperToProtocol ProtocolWrapper.requestState) = none →
      env.relayTick = Except.ok b →
      env.inbound = some (Protocol.json (JsonPayload.state sd)) →
      sd.state = "need_config" →
      env.sendErr (wrapperToProtocol ProtocolWrapper.requestDefaultConfig) = some e →
      (tick w env).result = Except.error e ∧
      (tick w env).delivered = [] ∧
      (tick w env).worker.state = "need_config") ∧
    (∀ (w : IpcNetWorker) (env : TickEnv) (cd : ConfigData) (e : String) (b : Bool),
      env.sendErr (wrapperToProtocol ProtocolWrapper.requestState) = none →
      env.relayTick = Except.ok b →
      env.inbound = some (Protocol.json (JsonPayload.defaultConfig cd)) →
      w.state = "need_config" →
      env.sendErr (wrapperToProtocol (ProtocolWrapper.setConfig { config := cd.config })) =
        some e →
      (tick w env).result = Except.error e ∧
      (tick w env).delivered = []) := by
  constructor
  · intro w env sd e b hs hrt hin hsd hse
    have hne := checkInitStep_no_err w env hs
    rcases h1 : checkInitStep w env with ⟨w1, sent1, e1⟩
    rw [h1] at hne
    have he1 : e1 = none := hne
    subst he1
    have h2 : handleControl w1 env (Protocol.json (JsonPayload.state sd)) =
        ({ w1 with state := "need_config" },
          [wrapperToProtocol ProtocolWrapper.requestDefaultConfig], some e) := by
      simp [handleControl, tryFrom, priv_handle_state, hsd, hse]
    unfold tick
    simp only [h1, hrt, hin, h2]
    exact ⟨trivial, trivial, trivial⟩
  · intro w env cd e b hs hrt hin hw hse
    have hf := checkInitStep_fields w env
    have hne := checkInitStep_no_err w env hs
    rcases h1 : checkInitStep w env with ⟨w1, sent1, e1⟩
    rw [h1] at hf hne
    have he1 : e1 = none := hne
    subst he1
    have hw1 : w1.state = "need_config" := hf.2.1.trans hw
    have h2 : handleControl w1 env (Protocol.json (JsonPayload.defaultConfig cd)) =
        (w1, [wrapperToProtocol (ProtocolWrapper.setConfig { config := cd.config })],
          some e) := by
      simp [handleControl, tryFrom, priv_handle_default_config, hw1, hse]
    unfold tick
    simp only [h1, hrt, hin, h2]
    exact ⟨trivial, trivial⟩

/-- Witness for C10: a worker in `need_config` whose `setConfig` send fails,
and a fresh worker whose `requestDefaultConfig` send fails after a
`need_config` report. -/
theorem control_send_failure_aborts_witness :
    ((tick initialWorker
        { now := 100, relayTick := Except.ok false,
          inbound := some (Protocol.json (JsonPayload.state ⟨"need_config", "i", []⟩)),
          sendErr := fun p =>
            if p = wrapperToProtocol ProtocolWrapper.requestDefaultConfig
            then some "send failed" else none,
          handlerErr := fun _ => none }).result = Except.error "send failed" ∧
      (tick initialWorker
        { now := 100, relayTick := Except.ok false,
          inbound := some (Protocol.json (JsonPayload.state ⟨"need_config", "i", []⟩)),
          sendErr := fun p =>
            if p = wrapperToProtocol ProtocolWrapper.requestDefaultConfig
            then some "send failed" else none,
          handlerErr := fun _ => none }).delivered = [] ∧
      (tick initialWorker
        { now := 100, relayTick := Except.ok false,
          inbound := some (Protocol.json (JsonPayload.state ⟨"need_config", "i", []⟩)),
          sendErr := fun p =>
            if p = wrapperToProtocol ProtocolWrapper.requestDefaultConfig
            then some "send failed" else none,
          handlerErr := fun _ => none }).worker.state = "need_config") ∧
    ((tick { is_ready := false, state := "need_config", last_state_millis := 0 }
        { now := 100, relayTick := Except.ok false,
          inbound := some (Protocol.json (JsonPayload.defaultConfig ⟨"X"⟩)),
          sendErr := fun p =>
            if p = wrapperToProtocol (ProtocolWrapper.setConfig { config := "X" })
            then some "send failed" else none,
          handlerErr := fun _ => none }).result = Except.error "send failed" ∧
      (tick { is_ready := false, state := "need_config", last_state_millis := 0 }
        { now := 100, relayTick := Except.ok false,
          inbound := some (Protocol.json (JsonPayload.defaultConfig ⟨"X"⟩)),
          sendErr := fun p =>
            if p = wrapperToProtocol (ProtocolWrapper.setConfig { config := "X" })
            then some "send failed" else none,
          handlerErr := fun _ => none }).delivered = []) :=
  ⟨control_send_failure_aborts.1 initialWorker _ ⟨"need_config", "i", []⟩ "send failed" false
      (by simp [wrapperToProtocol]) rfl rfl rfl (by simp),
   control_send_failure_aborts.2
      { is_ready := false, state := "need_config", last_state_millis := 0 }
      _ ⟨"X"⟩ "send failed" false (by simp [wrapperToProtocol]) rfl rfl rfl (by simp)⟩

/-- C8: production construction fails, before any transport I/O, whenever
the `socketType` value is not the JSON string `"zmq"` or `ipcUri` is absent
or not a string; the optional `blockConnect` boolean defaults to `false`
when missing and its absence never fails construction. -/
theorem new_config_validation (config : JsonValue) :
    (((config.index "socketType").eqStr "zmq" = false ∨
        (config.index "ipcUri").asStr = none) →
      ∃ m, newParseConfig config = Except.error m) ∧
    (∀ uri, (config.index "socketType").eqStr "zmq" = true →
      (config.index "ipcUri").asStr = some uri →
      (config.index "blockConnect").asBool = none →
      newParseConfig config = Except.ok (uri, false)) := by
  constructor
  · intro h
    rcases h with h | h
    · exact ⟨"unexpected socketType", by simp [newParseConfig, h]⟩
    · by_cases hz : (config.index "socketType").eqStr "zmq" = false
      · exact ⟨"unexpected socketType", by simp [newParseConfig, hz]⟩
      · refine ⟨"config.ipcUri is required", ?_⟩
        have hz' : (config.index "socketType").eqStr "zmq" = true := by
          cases hb : (config.index "socketType").eqStr "zmq"
          · exact absurd hb hz
          · rfl
        simp [newParseConfig, hz', h]
  · intro uri hz hu hb
    simp [newParseConfig, hz, hu, hb]

/-- Witness for C8: a config with the wrong socket type fails; a config with
`socketType: "zmq"`, a string `ipcUri` and no `blockConnect` succeeds with
`block_connect = false`. -/
theorem new_config_validation_witness :
    (∃ m, newParseConfig
        (JsonValue.obj [("socketType", JsonValue.str "tcp"),
          ("ipcUri", JsonValue.str "tcp://127.0.0.1:0")]) = Except.error m) ∧
    newParseConfig
        (JsonValue.obj [("socketType", JsonValue.str "zmq"),
          ("ipcUri", JsonValue.str "tcp://127.0.0.1:0")]) =
      Except.ok ("tcp://127.0.0.1:0", false) :=
  ⟨(new_config_validation _).1
      (Or.inl (by simp [JsonValue.index, JsonValue.eqStr, List.lookup])),
   (new_config_validation _).2 "tcp://127.0.0.1:0"
      (by simp [JsonValue.index, JsonValue.eqStr, List.lookup])
      (by simp [JsonValue.index, JsonValue.asStr, List.lookup])
      (by simp [JsonValue.index, JsonValue.asBool, List.lookup])⟩
